import Mathlib

/-!
Verification development for the list-organiser React Native app's filtering
subsystem.  The definitions below are a shallow embedding of the JavaScript
code in `app/(tabs)/myForm/[formId]/records.jsx` (category inference,
operator resolver, client-side predicate evaluator) and
`components/PhotoDisplay.js` (PostgREST query encoder
`filterRecordsByCriteria` and `filterRecordsSimple`).

JavaScript numbers are modelled as `JSNum`: NaN, ±Infinity, or an exact
finite decimal.  `parseFloat` and `Number(..)` string
conversion are modelled for decimal literals (optional sign, digits,
fraction, exponent) and the `Infinity` forms; hex/octal/binary literals and
binary-float rounding/overflow are not modelled — no value in this
development depends on them.
-/

namespace LO

/-- Model of a JavaScript number: NaN, ±Infinity, or a finite value.  A
finite value is an exact decimal `num / 10 ^ den10`, which covers every
result of parsing a decimal literal; the engine only parses and compares
numbers, so decimal fixed-point is a faithful value model and all
comparisons are exact integer comparisons. -/
inductive JSNum where
  | nan
  | inf
  | ninf
  | fin (num : Int) (den10 : Nat)
deriving DecidableEq, Repr

/-- Numeric equality of two finite decimals, by cross-multiplication. -/
def finEqb (an : Int) (ad : Nat) (bn : Int) (bd : Nat) : Bool :=
  an * (10 : Int) ^ bd == bn * (10 : Int) ^ ad

/-- Numeric strict order on finite decimals, by cross-multiplication. -/
def finLtb (an : Int) (ad : Nat) (bn : Int) (bd : Nat) : Bool :=
  decide (an * (10 : Int) ^ bd < bn * (10 : Int) ^ ad)

/-- Numeric non-strict order on finite decimals. -/
def finLeb (an : Int) (ad : Nat) (bn : Int) (bd : Nat) : Bool :=
  decide (an * (10 : Int) ^ bd ≤ bn * (10 : Int) ^ ad)

/-- JavaScript `Number.isNaN` on a `JSNum`. -/
def JSNum.isNaN : JSNum → Bool
  | .nan => true
  | _ => false

/-- Whether a `JSNum` is a finite number (`isFinite`). -/
def JSNum.isFin : JSNum → Bool
  | .fin _ _ => true
  | _ => false

/-- JavaScript strict equality `===` on numbers (`NaN === x` is false). -/
def JSNum.eqb : JSNum → JSNum → Bool
  | .nan, _ => false
  | _, .nan => false
  | .inf, .inf => true
  | .ninf, .ninf => true
  | .fin a ad, .fin b bd => finEqb a ad b bd
  | _, _ => false

/-- JavaScript `<` on numbers (false whenever either side is NaN). -/
def JSNum.ltb : JSNum → JSNum → Bool
  | .nan, _ => false
  | _, .nan => false
  | .ninf, .ninf => false
  | .ninf, _ => true
  | _, .ninf => false
  | .inf, _ => false
  | .fin _ _, .inf => true
  | .fin a ad, .fin b bd => finLtb a ad b bd

/-- JavaScript `<=` on numbers (false whenever either side is NaN). -/
def JSNum.leb : JSNum → JSNum → Bool
  | .nan, _ => false
  | _, .nan => false
  | .ninf, _ => true
  | _, .ninf => false
  | .inf, .inf => true
  | .fin _ _, .inf => true
  | .inf, .fin _ _ => false
  | .fin a ad, .fin b bd => finLeb a ad b bd

/-- JavaScript `>` on numbers. -/
def JSNum.gtb (a b : JSNum) : Bool := JSNum.ltb b a

/-- JavaScript `>=` on numbers. -/
def JSNum.geb (a b : JSNum) : Bool := JSNum.leb b a

/-- JavaScript whitespace, as far as the modelled strings need. -/
def isWhite (c : Char) : Bool :=
  c == ' ' || c == '\t' || c == '\n' || c == '\r'

/-- Numeric value of a digit string (most significant first). -/
def digitsVal (ds : List Char) : Nat :=
  ds.foldl (fun n c => 10 * n + (c.toNat - 48)) 0

/-- Parse an unsigned decimal mantissa (`digits`, `digits.digits`,
`.digits`, `digits.`) from the front of a character list; returns the
value as a decimal pair `(mantissa, fraction length)` and the unconsumed
remainder. -/
def parseUnsigned (cs : List Char) : Option ((Nat × Nat) × List Char) :=
  let ds := cs.takeWhile Char.isDigit
  let r1 := cs.dropWhile Char.isDigit
  match r1 with
  | '.' :: r2 =>
    let fs := r2.takeWhile Char.isDigit
    let r3 := r2.dropWhile Char.isDigit
    if ds.isEmpty && fs.isEmpty then none
    else some ((digitsVal (ds ++ fs), fs.length), r3)
  | _ => if ds.isEmpty then none else some ((digitsVal ds, 0), r1)

/-- Parse an optional exponent part (`e`/`E`, optional sign, digits) from
the front of a character list; with no valid exponent nothing is consumed
and the exponent is 0. -/
def parseExp (cs : List Char) : Int × List Char :=
  match cs with
  | 'e' :: r | 'E' :: r =>
    match r with
    | '+' :: r2 =>
      let ds := r2.takeWhile Char.isDigit
      if ds.isEmpty then (0, cs) else ((digitsVal ds : Int), r2.dropWhile Char.isDigit)
    | '-' :: r2 =>
      let ds := r2.takeWhile Char.isDigit
      if ds.isEmpty then (0, cs) else (-(digitsVal ds : Int), r2.dropWhile Char.isDigit)
    | _ =>
      let ds := r.takeWhile Char.isDigit
      if ds.isEmpty then (0, cs) else ((digitsVal ds : Int), r.dropWhile Char.isDigit)
  | _ => (0, cs)

/-- Apply a (signed) power-of-ten exponent to a decimal pair. -/
def applyExp (m : Nat) (d : Nat) (e : Int) : Nat × Nat :=
  if 0 ≤ e then (m * 10 ^ e.toNat, d) else (m, d + (-e).toNat)

/-- JavaScript `parseFloat` on a character list: skip leading whitespace,
optional sign, then `Infinity` or the longest decimal prefix; `NaN` if no
numeric prefix exists.  Trailing garbage is ignored. -/
def parseFloatCore (cs : List Char) : JSNum :=
  let cs1 := cs.dropWhile isWhite
  let sign : Bool × List Char :=
    match cs1 with
    | '+' :: r => (false, r)
    | '-' :: r => (true, r)
    | _ => (false, cs1)
  let neg := sign.1
  let cs2 := sign.2
  if ("Infinity".data).isPrefixOf cs2 then (if neg then .ninf else .inf)
  else
    match parseUnsigned cs2 with
    | none => .nan
    | some (md, r) =>
      let e := (parseExp r).1
      let v := applyExp md.1 md.2 e
      .fin (if neg then -(v.1 : Int) else (v.1 : Int)) v.2

/-- JavaScript `parseFloat` on a string. -/
def parseFloat (s : String) : JSNum := parseFloatCore s.data

/-- Drop whitespace from both ends of a character list. -/
def trimChars (cs : List Char) : List Char :=
  ((cs.dropWhile isWhite).reverse.dropWhile isWhite).reverse

/-- JavaScript `String.prototype.trim`. -/
def trimStr (s : String) : String := String.mk (trimChars s.data)

/-- JavaScript `Number(string)` conversion: trims whitespace, the empty
string is 0, otherwise the whole remaining string must be a signed decimal
literal or `Infinity`; anything else is NaN. -/
def strToNumber (s : String) : JSNum :=
  let cs := trimChars s.data
  if cs.isEmpty then .fin 0 0
  else
    let sign : Bool × List Char :=
      match cs with
      | '+' :: r => (false, r)
      | '-' :: r => (true, r)
      | _ => (false, cs)
    let neg := sign.1
    let cs2 := sign.2
    if cs2 == "Infinity".data then (if neg then .ninf else .inf)
    else
      match parseUnsigned cs2 with
      | none => .nan
      | some (md, r) =>
        let er := parseExp r
        if er.2.isEmpty then
          let v := applyExp md.1 md.2 er.1
          .fin (if neg then -(v.1 : Int) else (v.1 : Int)) v.2
        else .nan

/-- Decimal rendering of a finite JavaScript number `num / 10 ^ den10`
(sign, integer part, fractional digits with trailing zeros stripped;
JavaScript's e-notation for extreme magnitudes is not modelled — no value
in this development reaches it). -/
def finToString (num : Int) (den10 : Nat) : String :=
  let sgn := if num < 0 then "-" else ""
  let a := num.natAbs
  let p := 10 ^ den10
  let rem := a % p
  let frac :=
    if rem = 0 then "" else
      let s := toString rem
      let padded := List.replicate (den10 - s.length) '0' ++ s.data
      String.mk ((padded.reverse.dropWhile (fun c => c == '0')).reverse)
  sgn ++ toString (a / p) ++ (if frac == "" then "" else "." ++ frac)

/-- A raw stored value in a record's `values` mapping, as the filter
engine sees it after JSON deserialization: a string (all values this app
writes are strings — form inputs or `JSON.stringify` output), a JSON
number (finite decimal, since JSON has no NaN/Infinity), or a structured
object. -/
inductive JSValue where
  | str (s : String)
  | jnum (num : Int) (den10 : Nat)
  | obj
deriving DecidableEq, Repr

/-- JavaScript truthiness of a stored value. -/
def JSValue.truthy : JSValue → Bool
  | .str s => !(s == "")
  | .jnum n _ => !(n == 0)
  | .obj => true

/-- JavaScript `typeof value === 'string'`. -/
def JSValue.isStr : JSValue → Bool
  | .str _ => true
  | _ => false

/-- JavaScript string coercion `value.toString()` of a stored value. -/
def JSValue.toStr : JSValue → String
  | .str s => s
  | .jnum n d => finToString n d
  | .obj => "[object Object]"

/-- JavaScript `Number(value)` coercion of a stored value. -/
def JSValue.toNum : JSValue → JSNum
  | .str s => strToNumber s
  | .jnum n d => .fin n d
  | .obj => .nan

/-- A field definition as fetched from the backend (`/field`): the
properties the filter engine reads. -/
structure Field where
  name : String
  field_type : String
  is_num : Bool
deriving DecidableEq, Repr

/-- A record as fetched from the backend (`/record`): an id and the
`values` mapping from field name to raw stored value
(`Object.entries` order). -/
structure Record where
  id : Nat
  values : List (String × JSValue)
deriving DecidableEq, Repr

/-- A filter clause as composed in the records screen
(`currentFilter` + `id`): field category, operator value string
(`eq`/`gt`/`lt`/`gte`/`lte`/`ilike`/`like`), comparison value, and the
AND/OR combinator (`logic`). -/
structure EvalFilter where
  fieldType : String
  operator : String
  value : String
  logic : String
  id : Nat
deriving DecidableEq, Repr

/-- A filter object as consumed by `filterRecordsByCriteria` in
`PhotoDisplay.js`: field name, operator, value, the `isNumeric` marking,
and the (unread) combinator. -/
structure EncFilter where
  field : String
  operator : String
  value : String
  isNumeric : Bool
  logic : String
deriving DecidableEq, Repr

/-- One per-category profile of `getFieldCategories`' result:
`{ label, hasText, hasNumeric }`. -/
structure CatProfile where
  label : String
  hasText : Bool
  hasNumeric : Bool
deriving DecidableEq, Repr

/-- The `categories` dictionary of `getFieldCategories`, with its three
fixed keys `text`, `multiline`, `dropdown`. -/
structure Categories where
  text : CatProfile
  multiline : CatProfile
  dropdown : CatProfile
deriving DecidableEq, Repr

/-- Dictionary lookup `categories[fieldType]`: `some` for the three fixed
keys, `none` (undefined) otherwise. -/
def Categories.get? (c : Categories) (ft : String) : Option CatProfile :=
  if ft = "text" then some c.text
  else if ft = "multiline" then some c.multiline
  else if ft = "dropdown" then some c.dropdown
  else none

/-- In-place update `categories[ft] = g categories[ft]` (no-op on an
untracked key). -/
def Categories.modify (c : Categories) (ft : String) (g : CatProfile → CatProfile) : Categories :=
  if ft = "text" then { c with text := g c.text }
  else if ft = "multiline" then { c with multiline := g c.multiline }
  else if ft = "dropdown" then { c with dropdown := g c.dropdown }
  else c

/-- The assignment `profile.hasNumeric = true`. -/
def setNumericFlag (p : CatProfile) : CatProfile := { p with hasNumeric := true }

/-- The assignment `profile.hasText = true`. -/
def setTextFlag (p : CatProfile) : CatProfile := { p with hasText := true }

/-- The initial `categories` object of `getFieldCategories`. -/
def initCategories : Categories :=
  { text := ⟨"Text Fields", false, false⟩
    multiline := ⟨"Multiline Fields", false, false⟩
    dropdown := ⟨"Dropdown Fields", false, false⟩ }

/-- Field-definition scan of `getFieldCategories` (records.jsx lines
42–50): a tracked field contributes numeric evidence when `is_num` is
set, text evidence otherwise. -/
def fieldStep (c : Categories) (f : Field) : Categories :=
  if f.field_type = "text" ∨ f.field_type = "multiline" ∨ f.field_type = "dropdown" then
    if f.is_num then c.modify f.field_type setNumericFlag
    else c.modify f.field_type setTextFlag
  else c

/-- The numeric test of the record-value scan:
`value && !isNaN(parseFloat(value)) && isFinite(value)`. -/
def numericEvidence (v : JSValue) : Bool :=
  v.truthy && !(parseFloat v.toStr).isNaN && (v.toNum).isFin

/-- The text test of the record-value scan:
`value && typeof value === 'string' && value.trim() !== ''`. -/
def textEvidence (v : JSValue) : Bool :=
  v.truthy && v.isStr && !(trimStr v.toStr == "")

/-- One `(fieldName, value)` entry of the record-value scan of
`getFieldCategories` (records.jsx lines 53–65). -/
def entryStep (fields : List Field) (c : Categories) (nv : String × JSValue) : Categories :=
  match fields.find? (fun f => f.name == nv.1) with
  | some field =>
    if (c.get? field.field_type).isSome then
      if numericEvidence nv.2 then c.modify field.field_type setNumericFlag
      else if textEvidence nv.2 then c.modify field.field_type setTextFlag
      else c
    else c
  | none => c

/-- The per-record step of the record-value scan. -/
def recordStep (fields : List Field) (c : Categories) (r : Record) : Categories :=
  r.values.foldl (entryStep fields) c

/-- The function `getFieldCategories` (records.jsx lines 34–68): per-category
numeric/text evidence inferred from the field definitions and the record
values. -/
def getFieldCategories (fields : List Field) (records : List Record) : Categories :=
  records.foldl (recordStep fields) (fields.foldl fieldStep initCategories)

/-- An operator entry `{ value, label }` of the operator resolver. -/
structure OpEntry where
  value : String
  label : String
deriving DecidableEq, Repr

/-- The `numericOperators` list of `getOperatorsForFieldType`. -/
def numericOperators : List OpEntry :=
  [⟨"gt", "Greater Than"⟩, ⟨"lt", "Less Than"⟩,
   ⟨"gte", "Greater or Equal"⟩, ⟨"lte", "Less or Equal"⟩]

/-- The `stringOperators` list of `getOperatorsForFieldType`. -/
def stringOperators : List OpEntry :=
  [⟨"ilike", "Contains"⟩, ⟨"like", "Starts With"⟩]

/-- The always-available `equalsOperator`. -/
def equalsOperator : OpEntry := ⟨"eq", "Equals"⟩

/-- The function `getOperatorsForFieldType` (records.jsx lines 73–102): derives the
operator list for a field category from the inferred profile. -/
def getOperatorsForFieldType (fieldCategories : Categories) (fieldType : String) : List OpEntry :=
  match fieldCategories.get? fieldType with
  | none => []
  | some category =>
    if category.hasNumeric && category.hasText then
      equalsOperator :: (numericOperators ++ stringOperators)
    else if category.hasNumeric then
      equalsOperator :: numericOperators
    else
      equalsOperator :: stringOperators

/-- ASCII lowercasing of one character (JavaScript `toLowerCase`,
restricted to the ASCII range the modelled strings use). -/
def lowerChar (c : Char) : Char :=
  if 'A' ≤ c ∧ c ≤ 'Z' then Char.ofNat (c.toNat + 32) else c

/-- JavaScript `String.prototype.toLowerCase`. -/
def toLowerStr (s : String) : String := String.mk (s.data.map lowerChar)

/-- Contiguous-substring test on character lists. -/
def listIncludes (h n : List Char) : Bool :=
  (List.range (h.length + 1)).any (fun i => n.isPrefixOf (h.drop i))

/-- JavaScript `String.prototype.includes`. -/
def strIncludes (h n : String) : Bool := listIncludes h.data n.data

/-- JavaScript `String.prototype.startsWith`. -/
def strStarts (h n : String) : Bool := n.data.isPrefixOf h.data

/-- The numeric-comparison switch shared by the evaluator's numeric
branch; `none` models falling out of the `switch` for the operators it
does not list. -/
def numericCompare (op : String) (numValue numFilter : JSNum) : Option Bool :=
  match op with
  | "eq" => some (numValue.eqb numFilter)
  | "gt" => some (numValue.gtb numFilter)
  | "lt" => some (numValue.ltb numFilter)
  | "gte" => some (numValue.geb numFilter)
  | "lte" => some (numValue.leb numFilter)
  | _ => none

/-- The per-value body of `applyFilters` (records.jsx lines 184–235):
numeric branch first (its `switch` falls through for `ilike`/`like`),
then the text branch with its numeric fallback for `gt`/`lt`/`gte`/`lte`. -/
def valueMatches (fieldCategories : Categories) (filter : EvalFilter) (fieldValue : JSValue) : Bool :=
  let stringValue := fieldValue.toStr
  let filterValue := toLowerStr filter.value
  let currentValue := toLowerStr stringValue
  let category := fieldCategories.get? filter.fieldType
  let hasNumeric := match category with | some c => c.hasNumeric | none => false
  let hasText := match category with | some c => c.hasText | none => false
  let numericOk := !(parseFloat stringValue).isNaN && (strToNumber stringValue).isFin
  match (if hasNumeric && numericOk then
          numericCompare filter.operator (parseFloat stringValue) (parseFloat filter.value)
         else none) with
  | some b => b
  | none =>
    if hasText then
      match filter.operator with
      | "eq" => currentValue == filterValue
      | "ilike" => strIncludes currentValue filterValue
      | "like" => strStarts currentValue filterValue
      | "gt" | "lt" | "gte" | "lte" =>
        if numericOk then
          match numericCompare filter.operator (parseFloat stringValue) (parseFloat filter.value) with
          | some b => b
          | none => false
        else false
      | _ => false
    else false

/-- One clause of `applyFilters`: the clause holds for a record when any
field of the clause's category on that record satisfies it
(records.jsx lines 176–235). -/
def clauseHolds (fieldCategories : Categories) (fields : List Field) (record : Record) (filter : EvalFilter) : Bool :=
  let matchingFields := record.values.filter (fun nv =>
    match fields.find? (fun f => f.name == nv.1) with
    | some field => field.field_type == filter.fieldType
    | none => false)
  matchingFields.any (fun nv => valueMatches fieldCategories filter nv.2)

/-- The function `applyFilters` (records.jsx lines 166–244) on already-fetched data:
with no clauses the whole collection is returned, otherwise the records
for which every clause holds.  `fieldCategories` is the profile
dictionary the closure captures. -/
def applyFilters (allRecords : List Record) (fields : List Field)
    (fieldCategories : Categories) (filtersToApply : List EvalFilter) : List Record :=
  if filtersToApply.length = 0 then allRecords
  else allRecords.filter (fun record =>
    filtersToApply.all (fun filter => clauseHolds fieldCategories fields record filter))

/-- The evaluator path with the category profiles derived fresh from the
record collection it is given. -/
def evaluate (records : List Record) (fields : List Field) (filters : List EvalFilter) : List Record :=
  applyFilters records fields (getFieldCategories fields records) filters

/-- Hexadecimal digit (uppercase, as `encodeURIComponent` produces). -/
def hexDigitChar (n : Nat) : Char :=
  if n < 10 then Char.ofNat (48 + n) else Char.ofNat (55 + n)

/-- Percent-escape `%XX` of one byte. -/
def byteHex (b : Nat) : List Char :=
  ['%', hexDigitChar (b / 16), hexDigitChar (b % 16)]

/-- UTF-8 bytes of a character, as natural numbers. -/
def utf8Bytes (c : Char) : List Nat :=
  let n := c.toNat
  if n < 128 then [n]
  else if n < 2048 then [192 + n / 64, 128 + n % 64]
  else if n < 65536 then [224 + n / 4096, 128 + (n / 64) % 64, 128 + n % 64]
  else [240 + n / 262144, 128 + (n / 4096) % 64, 128 + (n / 64) % 64, 128 + n % 64]

/-- The characters `encodeURIComponent` leaves unescaped. -/
def uriUnreserved (c : Char) : Bool :=
  c.isAlpha || c.isDigit ||
    (c == '-' || c == '_' || c == '.' || c == '!' || c == '~' ||
     c == '*' || c == Char.ofNat 39 || c == '(' || c == ')')

/-- JavaScript `encodeURIComponent`. -/
def encodeURIComponent (s : String) : String :=
  String.mk (s.data.foldr (fun c acc =>
    (if uriUnreserved c then [c] else (utf8Bytes c).foldr (fun b a => byteHex b ++ a) []) ++ acc) [])

/-- The unfiltered base query `/record?form_id=eq.<formId>` that
`getRecordsByFormId` requests. -/
def baseQuery (formId : Nat) : String := "/record?form_id=eq." ++ toString formId

/-- The `queryParam` built for one filter of `filterRecordsByCriteria`
(PhotoDisplay.js lines 329–365), including the `jsonOperator` choice
`filter.isNumeric ? '-' : '-%3E'`; `none` models the `default: return`
that skips an unrecognized operator. -/
def clauseParam (filter : EncFilter) : Option String :=
  let encodedField := encodeURIComponent ("\"" ++ filter.field ++ "\"")
  let jsonOperator := if filter.isNumeric then "-" else "-%3E"
  match filter.operator with
  | "eq" => some ("values" ++ jsonOperator ++ encodedField ++ "=eq." ++ encodeURIComponent filter.value)
  | "ilike" => some ("values" ++ jsonOperator ++ encodedField ++ "=ilike.*" ++ encodeURIComponent filter.value ++ "*")
  | "like" => some ("values" ++ jsonOperator ++ encodedField ++ "=like." ++ encodeURIComponent filter.value ++ "%")
  | "gt" => some ("values" ++ jsonOperator ++ encodedField ++ "=gt." ++ encodeURIComponent filter.value)
  | "lt" => some ("values" ++ jsonOperator ++ encodedField ++ "=lt." ++ encodeURIComponent filter.value)
  | "gte" => some ("values" ++ jsonOperator ++ encodedField ++ "=gte." ++ encodeURIComponent filter.value)
  | "lte" => some ("values" ++ jsonOperator ++ encodedField ++ "=lte." ++ encodeURIComponent filter.value)
  | _ => none

/-- The indexed `forEach` loop of `filterRecordsByCriteria`: a recognized
clause at index > 0 is preceded by `&`; the first recognized clause at
index 0 is appended with no separator. -/
def buildQuery (filters : List EncFilter) (index : Nat) (query : String) : String :=
  match filters with
  | [] => query
  | f :: rest =>
    let query' :=
      match clauseParam f with
      | none => query
      | some p => (if index > 0 then query ++ "&" else query) ++ p
    buildQuery rest (index + 1) query'

/-- The query string `filterRecordsByCriteria` (PhotoDisplay.js lines
321–375) sends to `apiRequest`: the unfiltered base query when `filters`
is empty, otherwise the base query extended clause by clause. -/
def filterQuery (formId : Nat) (filters : List EncFilter) : String :=
  if filters.length = 0 then baseQuery formId
  else buildQuery filters 0 (baseQuery formId)

/-- The query string `filterRecordsSimple` (PhotoDisplay.js lines
380–413) sends to `apiRequest`: a hard-coded `isNumeric = false`, and the
single clause is prefixed with `&`. -/
def filterRecordsSimple (formId : Nat) (field operator value : String) : String :=
  let encodedField := encodeURIComponent ("\"" ++ field ++ "\"")
  let isNumeric := false
  let jsonOperator := if isNumeric then "-" else "-%3E"
  let query := baseQuery formId
  match operator with
  | "eq" => query ++ "&values" ++ jsonOperator ++ encodedField ++ "=eq." ++ encodeURIComponent value
  | "ilike" => query ++ "&values" ++ jsonOperator ++ encodedField ++ "=ilike.*" ++ encodeURIComponent value ++ "*"
  | "like" => query ++ "&values" ++ jsonOperator ++ encodedField ++ "=like." ++ encodeURIComponent value ++ "%"
  | "gt" => query ++ "&values" ++ jsonOperator ++ encodedField ++ "=gt." ++ encodeURIComponent value
  | "lt" => query ++ "&values" ++ jsonOperator ++ encodedField ++ "=lt." ++ encodeURIComponent value
  | "gte" => query ++ "&values" ++ jsonOperator ++ encodedField ++ "=gte." ++ encodeURIComponent value
  | "lte" => query ++ "&values" ++ jsonOperator ++ encodedField ++ "=lte." ++ encodeURIComponent value
  | _ => query

/-- Modelled from the spec: the always-text-extraction clause encoding of
§4.3, which claims the `jsonOperator` is always the text-extraction form
`-%3E`; compared against `clauseParam` from the source. -/
def clauseParamAlwaysText (filter : EncFilter) : Option String :=
  let encodedField := encodeURIComponent ("\"" ++ filter.field ++ "\"")
  let jsonOperator := "-%3E"
  match filter.operator with
  | "eq" => some ("values" ++ jsonOperator ++ encodedField ++ "=eq." ++ encodeURIComponent filter.value)
  | "ilike" => some ("values" ++ jsonOperator ++ encodedField ++ "=ilike.*" ++ encodeURIComponent filter.value ++ "*")
  | "like" => some ("values" ++ jsonOperator ++ encodedField ++ "=like." ++ encodeURIComponent filter.value ++ "%")
  | "gt" => some ("values" ++ jsonOperator ++ encodedField ++ "=gt." ++ encodeURIComponent filter.value)
  | "lt" => some ("values" ++ jsonOperator ++ encodedField ++ "=lt." ++ encodeURIComponent filter.value)
  | "gte" => some ("values" ++ jsonOperator ++ encodedField ++ "=gte." ++ encodeURIComponent filter.value)
  | "lte" => some ("values" ++ jsonOperator ++ encodedField ++ "=lte." ++ encodeURIComponent filter.value)
  | _ => none

/-- The tail of a multi-clause query: each clause preceded by `&`. -/
def joinAmp (filters : List EncFilter) : String :=
  match filters with
  | [] => ""
  | f :: rest => "&" ++ (clauseParam f).getD "" ++ joinAmp rest

/-- Whether a field-type key is one of the three tracked categories. -/
def trackedB (ft : String) : Bool :=
  ft == "text" || ft == "multiline" || ft == "dropdown"

/-- Numeric evidence one field definition contributes to category `ft`. -/
def fieldNumContrib (ft : String) (f : Field) : Bool :=
  trackedB f.field_type && (f.field_type == ft) && f.is_num

/-- Text evidence one field definition contributes to category `ft`. -/
def fieldTextContrib (ft : String) (f : Field) : Bool :=
  trackedB f.field_type && (f.field_type == ft) && !f.is_num

/-- Numeric evidence one `(fieldName, value)` entry contributes to
category `ft`. -/
def entryNumContrib (fields : List Field) (ft : String) (nv : String × JSValue) : Bool :=
  match fields.find? (fun f => f.name == nv.1) with
  | some field => trackedB field.field_type && (field.field_type == ft) && numericEvidence nv.2
  | none => false

/-- Text evidence one `(fieldName, value)` entry contributes to
category `ft`. -/
def entryTextContrib (fields : List Field) (ft : String) (nv : String × JSValue) : Bool :=
  match fields.find? (fun f => f.name == nv.1) with
  | some field =>
    trackedB field.field_type && (field.field_type == ft) &&
      !numericEvidence nv.2 && textEvidence nv.2
  | none => false

/-- Numeric evidence one record contributes to category `ft`. -/
def recNumContrib (fields : List Field) (ft : String) (r : Record) : Bool :=
  r.values.any (entryNumContrib fields ft)

/-- Text evidence one record contributes to category `ft`. -/
def recTextContrib (fields : List Field) (ft : String) (r : Record) : Bool :=
  r.values.any (entryTextContrib fields ft)

/-- Scenario A field list: one declared-numeric plain-text field. -/
def scenarioAFields : List Field := [⟨"Age", "text", true⟩]

/-- Scenario A records: `Age` values `"10"`, `"20"`, `"abc"`. -/
def scenarioARecords : List Record :=
  [⟨1, [("Age", .str "10")]⟩, ⟨2, [("Age", .str "20")]⟩, ⟨3, [("Age", .str "abc")]⟩]

/-- The `forEach` loop of the spec-modelled always-text encoder. -/
def buildQueryAlwaysText (filters : List EncFilter) (index : Nat) (query : String) : String :=
  match filters with
  | [] => query
  | f :: rest =>
    let query2 :=
      match clauseParamAlwaysText f with
      | none => query
      | some p => (if index > 0 then query ++ "&" else query) ++ p
    buildQueryAlwaysText rest (index + 1) query2

/-- Modelled from the spec: the encoder of §4.3 with the always-text
JSON-path extraction operator, used to compare the source encoder against
the spec's description. -/
def filterQueryAlwaysText (formId : Nat) (filters : List EncFilter) : String :=
  if filters.length = 0 then baseQuery formId
  else buildQueryAlwaysText filters 0 (baseQuery formId)

/-- The parts of an evaluator clause other than its combinator. -/
def evalFilterKey (f : EvalFilter) : String × String × String × Nat :=
  (f.fieldType, f.operator, f.value, f.id)

/-- The parts of an encoder clause other than its combinator. -/
def encFilterKey (f : EncFilter) : String × String × String × Bool :=
  (f.field, f.operator, f.value, f.isNumeric)

theorem get?_isSome (c : Categories) (ft : String) :
    (c.get? ft).isSome = trackedB ft := by
  unfold Categories.get? trackedB
  split_ifs with h1 h2 h3 <;> simp_all

/-- A fold whose step ORs a state-independent contribution into a flag
yields the old flag ORed with the contribution of any element. -/
theorem foldl_flag {α : Type} (step : Categories → α → Categories)
    (g : Categories → Bool) (f : α → Bool)
    (hstep : ∀ c a, g (step c a) = (g c || f a)) :
    ∀ (l : List α) (c : Categories), g (l.foldl step c) = (g c || l.any f) := by
  intro l
  induction l with
  | nil => intro c; simp
  | cons a t ih =>
    intro c
    simp [List.foldl_cons, ih, hstep, Bool.or_assoc]

theorem entryStep_text_num (fields : List Field) (c : Categories) (nv : String × JSValue) :
    (entryStep fields c nv).text.hasNumeric
      = (c.text.hasNumeric || entryNumContrib fields "text" nv) := by
  unfold entryStep entryNumContrib
  cases hf : fields.find? (fun f => f.name == nv.1) with
  | none => simp
  | some field =>
    simp only [get?_isSome]
    split_ifs with h1 h2 h3 <;>
      simp_all [Categories.modify, setNumericFlag, setTextFlag, trackedB] <;>
      split_ifs <;> simp_all

theorem entryStep_text_text (fields : List Field) (c : Categories) (nv : String × JSValue) :
    (entryStep fields c nv).text.hasText
      = (c.text.hasText || entryTextContrib fields "text" nv) := by
  unfold entryStep entryTextContrib
  cases hf : fields.find? (fun f => f.name == nv.1) with
  | none => simp
  | some field =>
    simp only [get?_isSome]
    split_ifs with h1 h2 h3 <;>
      simp_all [Categories.modify, setNumericFlag, setTextFlag, trackedB] <;>
      split_ifs <;> simp_all

theorem entryStep_multiline_num (fields : List Field) (c : Categories) (nv : String × JSValue) :
    (entryStep fields c nv).multiline.hasNumeric
      = (c.multiline.hasNumeric || entryNumContrib fields "multiline" nv) := by
  unfold entryStep entryNumContrib
  cases hf : fields.find? (fun f => f.name == nv.1) with
  | none => simp
  | some field =>
    simp only [get?_isSome]
    split_ifs with h1 h2 h3 <;>
      simp_all [Categories.modify, setNumericFlag, setTextFlag, trackedB] <;>
      split_ifs <;> simp_all

theorem entryStep_multiline_text (fields : List Field) (c : Categories) (nv : String × JSValue) :
    (entryStep fields c nv).multiline.hasText
      = (c.multiline.hasText || entryTextContrib fields "multiline" nv) := by
  unfold entryStep entryTextContrib
  cases hf : fields.find? (fun f => f.name == nv.1) with
  | none => simp
  | some field =>
    simp only [get?_isSome]
    split_ifs with h1 h2 h3 <;>
      simp_all [Categories.modify, setNumericFlag, setTextFlag, trackedB] <;>
      split_ifs <;> simp_all

theorem entryStep_dropdown_num (fields : List Field) (c : Categories) (nv : String × JSValue) :
    (entryStep fields c nv).dropdown.hasNumeric
      = (c.dropdown.hasNumeric || entryNumContrib fields "dropdown" nv) := by
  unfold entryStep entryNumContrib
  cases hf : fields.find? (fun f => f.name == nv.1) with
  | none => simp
  | some field =>
    simp only [get?_isSome]
    split_ifs with h1 h2 h3 <;>
      simp_all [Categories.modify, setNumericFlag, setTextFlag, trackedB] <;>
      split_ifs <;> simp_all

theorem entryStep_dropdown_text (fields : List Field) (c : Categories) (nv : String × JSValue) :
    (entryStep fields c nv).dropdown.hasText
      = (c.dropdown.hasText || entryTextContrib fields "dropdown" nv) := by
  unfold entryStep entryTextContrib
  cases hf : fields.find? (fun f => f.name == nv.1) with
  | none => simp
  | some field =>
    simp only [get?_isSome]
    split_ifs with h1 h2 h3 <;>
      simp_all [Categories.modify, setNumericFlag, setTextFlag, trackedB] <;>
      split_ifs <;> simp_all

theorem fieldStep_text_num (c : Categories) (f : Field) :
    (fieldStep c f).text.hasNumeric = (c.text.hasNumeric || fieldNumContrib "text" f) := by
  unfold fieldStep fieldNumContrib
  split_ifs with h1 h2 <;>
    simp_all [Categories.modify, setNumericFlag, setTextFlag, trackedB] <;>
    split_ifs <;> simp_all

theorem fieldStep_text_text (c : Categories) (f : Field) :
    (fieldStep c f).text.hasText = (c.text.hasText || fieldTextContrib "text" f) := by
  unfold fieldStep fieldTextContrib
  split_ifs with h1 h2 <;>
    simp_all [Categories.modify, setNumericFlag, setTextFlag, trackedB] <;>
    split_ifs <;> simp_all

theorem fieldStep_multiline_num (c : Categories) (f : Field) :
    (fieldStep c f).multiline.hasNumeric = (c.multiline.hasNumeric || fieldNumContrib "multiline" f) := by
  unfold fieldStep fieldNumContrib
  split_ifs with h1 h2 <;>
    simp_all [Categories.modify, setNumericFlag, setTextFlag, trackedB] <;>
    split_ifs <;> simp_all

theorem fieldStep_multiline_text (c : Categories) (f : Field) :
    (fieldStep c f).multiline.hasText = (c.multiline.hasText || fieldTextContrib "multiline" f) := by
  unfold fieldStep fieldTextContrib
  split_ifs with h1 h2 <;>
    simp_all [Categories.modify, setNumericFlag, setTextFlag, trackedB] <;>
    split_ifs <;> simp_all

theorem fieldStep_dropdown_num (c : Categories) (f : Field) :
    (fieldStep c f).dropdown.hasNumeric = (c.dropdown.hasNumeric || fieldNumContrib "dropdown" f) := by
  unfold fieldStep fieldNumContrib
  split_ifs with h1 h2 <;>
    simp_all [Categories.modify, setNumericFlag, setTextFlag, trackedB] <;>
    split_ifs <;> simp_all

theorem fieldStep_dropdown_text (c : Categories) (f : Field) :
    (fieldStep c f).dropdown.hasText = (c.dropdown.hasText || fieldTextContrib "dropdown" f) := by
  unfold fieldStep fieldTextContrib
  split_ifs with h1 h2 <;>
    simp_all [Categories.modify, setNumericFlag, setTextFlag, trackedB] <;>
    split_ifs <;> simp_all

theorem recordStep_num (ft : String) (fields : List Field) (c : Categories) (r : Record)
    (acc : Categories → Bool)
    (hacc : ∀ c nv, acc (entryStep fields c nv) = (acc c || entryNumContrib fields ft nv)) :
    acc (recordStep fields c r) = (acc c || recNumContrib fields ft r) := by
  unfold recordStep recNumContrib
  exact foldl_flag (entryStep fields) acc (entryNumContrib fields ft) hacc r.values c

theorem recordStep_text (ft : String) (fields : List Field) (c : Categories) (r : Record)
    (acc : Categories → Bool)
    (hacc : ∀ c nv, acc (entryStep fields c nv) = (acc c || entryTextContrib fields ft nv)) :
    acc (recordStep fields c r) = (acc c || recTextContrib fields ft r) := by
  unfold recordStep recTextContrib
  exact foldl_flag (entryStep fields) acc (entryTextContrib fields ft) hacc r.values c

/-- Characterization of the numeric-evidence flag of one category slot of
`getFieldCategories`: it is set exactly when some field definition or
some record value contributes numeric evidence. -/
theorem cats_num_char (ft : String) (fields : List Field) (records : List Record)
    (acc : Categories → Bool)
    (haccE : ∀ c nv, acc (entryStep fields c nv) = (acc c || entryNumContrib fields ft nv))
    (haccF : ∀ c f, acc (fieldStep c f) = (acc c || fieldNumContrib ft f))
    (hinit : acc initCategories = false) :
    acc (getFieldCategories fields records)
      = (fields.any (fieldNumContrib ft) || records.any (recNumContrib fields ft)) := by
  unfold getFieldCategories
  rw [foldl_flag (recordStep fields) acc (recNumContrib fields ft)
      (fun c r => recordStep_num ft fields c r acc haccE)]
  rw [foldl_flag fieldStep acc (fieldNumContrib ft) haccF]
  rw [hinit]
  simp

/-- Characterization of the text-evidence flag of one category slot of
`getFieldCategories`. -/
theorem cats_text_char (ft : String) (fields : List Field) (records : List Record)
    (acc : Categories → Bool)
    (haccE : ∀ c nv, acc (entryStep fields c nv) = (acc c || entryTextContrib fields ft nv))
    (haccF : ∀ c f, acc (fieldStep c f) = (acc c || fieldTextContrib ft f))
    (hinit : acc initCategories = false) :
    acc (getFieldCategories fields records)
      = (fields.any (fieldTextContrib ft) || records.any (recTextContrib fields ft)) := by
  unfold getFieldCategories
  rw [foldl_flag (recordStep fields) acc (recTextContrib fields ft)
      (fun c r => recordStep_text ft fields c r acc haccE)]
  rw [foldl_flag fieldStep acc (fieldTextContrib ft) haccF]
  rw [hinit]
  simp

/-- Closed form for both evidence flags of the profile `getFieldCategories`
returns for a tracked category key. -/
theorem cats_flags_char (fields : List Field) (records : List Record) (ft : String)
    (p : CatProfile) (hp : (getFieldCategories fields records).get? ft = some p) :
    p.hasNumeric = (fields.any (fieldNumContrib ft) || records.any (recNumContrib fields ft))
    ∧ p.hasText = (fields.any (fieldTextContrib ft) || records.any (recTextContrib fields ft)) := by
  unfold Categories.get? at hp
  split_ifs at hp with h1 h2 h3
  · injection hp with h; subst h; subst h1
    exact ⟨cats_num_char "text" fields records (fun c => c.text.hasNumeric)
             (entryStep_text_num fields) fieldStep_text_num rfl,
           cats_text_char "text" fields records (fun c => c.text.hasText)
             (entryStep_text_text fields) fieldStep_text_text rfl⟩
  · injection hp with h; subst h; subst h2
    exact ⟨cats_num_char "multiline" fields records (fun c => c.multiline.hasNumeric)
             (entryStep_multiline_num fields) fieldStep_multiline_num rfl,
           cats_text_char "multiline" fields records (fun c => c.multiline.hasText)
             (entryStep_multiline_text fields) fieldStep_multiline_text rfl⟩
  · injection hp with h; subst h; subst h3
    exact ⟨cats_num_char "dropdown" fields records (fun c => c.dropdown.hasNumeric)
             (entryStep_dropdown_num fields) fieldStep_dropdown_num rfl,
           cats_text_char "dropdown" fields records (fun c => c.dropdown.hasText)
             (entryStep_dropdown_text fields) fieldStep_dropdown_text rfl⟩

/-- C8: category inference is monotonic in the record collection — for
every field list and record collections `R ⊆ R'`, each evidence flag
(numeric, text) set in a category profile inferred from `R` is also set
in the profile inferred from `R'`; adding records never clears a flag. -/
theorem c8_monotonic (fields : List Field) (R R2 : List Record)
    (hsub : ∀ r ∈ R, r ∈ R2) (ft : String) (p p2 : CatProfile)
    (hp : (getFieldCategories fields R).get? ft = some p)
    (hp2 : (getFieldCategories fields R2).get? ft = some p2) :
    (p.hasNumeric = true → p2.hasNumeric = true)
    ∧ (p.hasText = true → p2.hasText = true) := by
  obtain ⟨hn, ht⟩ := cats_flags_char fields R ft p hp
  obtain ⟨hn2, ht2⟩ := cats_flags_char fields R2 ft p2 hp2
  constructor
  · intro hx
    rw [hn] at hx; rw [hn2]
    rcases Bool.or_eq_true_iff.mp hx with hfld | hrec
    · simp [hfld]
    · obtain ⟨r, hrR, hr⟩ := List.any_eq_true.mp hrec
      simp [List.any_eq_true.mpr ⟨r, hsub r hrR, hr⟩]
  · intro hx
    rw [ht] at hx; rw [ht2]
    rcases Bool.or_eq_true_iff.mp hx with hfld | hrec
    · simp [hfld]
    · obtain ⟨r, hrR, hr⟩ := List.any_eq_true.mp hrec
      simp [List.any_eq_true.mpr ⟨r, hsub r hrR, hr⟩]

theorem c8_monotonic_witness :
    ((getFieldCategories [⟨"Age", "text", false⟩] [⟨1, [("Age", .str "7")]⟩]).get? "text"
        = some ⟨"Text Fields", true, true⟩)
    ∧ ((getFieldCategories [⟨"Age", "text", false⟩]
          [⟨1, [("Age", .str "7")]⟩, ⟨2, [("Age", .str "hi")]⟩]).get? "text"
        = some ⟨"Text Fields", true, true⟩)
    ∧ ((true = true → true = true) ∧ (true = true → true = true)) :=
  ⟨by decide, by decide,
   c8_monotonic [⟨"Age", "text", false⟩] [⟨1, [("Age", .str "7")]⟩]
     [⟨1, [("Age", .str "7")]⟩, ⟨2, [("Age", .str "hi")]⟩]
     (by decide) "text" ⟨"Text Fields", true, true⟩ ⟨"Text Fields", true, true⟩
     (by decide) (by decide)⟩

/-- C10: a category with at least one field of its type has at least one
evidence flag set for every record collection, because each field
definition itself contributes numeric evidence when `is_num` is set and
text evidence otherwise; a no-evidence profile can only belong to a
category with no fields. -/
theorem c10_field_evidence (fields : List Field) (records : List Record) (ft : String)
    (p : CatProfile) (f : Field) (hf : f ∈ fields) (hft : f.field_type = ft)
    (hp : (getFieldCategories fields records).get? ft = some p) :
    p.hasNumeric = true ∨ p.hasText = true := by
  obtain ⟨hn, ht⟩ := cats_flags_char fields records ft p hp
  have htr : trackedB ft = true := by
    have h := get?_isSome (getFieldCategories fields records) ft
    rw [hp] at h
    simpa using h.symm
  by_cases hnum : f.is_num = true
  · left
    rw [hn]
    have hc : fieldNumContrib ft f = true := by
      unfold fieldNumContrib
      simp [hft, htr, hnum]
    simp [List.any_eq_true.mpr ⟨f, hf, hc⟩]
  · right
    rw [ht]
    have hc : fieldTextContrib ft f = true := by
      unfold fieldTextContrib
      simp [hft, htr, Bool.eq_false_iff.mpr hnum]
    simp [List.any_eq_true.mpr ⟨f, hf, hc⟩]

theorem c10_field_evidence_witness :
    (⟨"Age", "text", true⟩ : Field) ∈ [(⟨"Age", "text", true⟩ : Field)]
    ∧ (Field.field_type ⟨"Age", "text", true⟩ = "text")
    ∧ ((getFieldCategories [⟨"Age", "text", true⟩] []).get? "text"
        = some ⟨"Text Fields", false, true⟩)
    ∧ ((⟨"Text Fields", false, true⟩ : CatProfile).hasNumeric = true
        ∨ (⟨"Text Fields", false, true⟩ : CatProfile).hasText = true) :=
  ⟨by decide, by decide, by decide,
   c10_field_evidence [⟨"Age", "text", true⟩] [] "text" ⟨"Text Fields", false, true⟩
     ⟨"Age", "text", true⟩ (by decide) (by decide) (by decide)⟩

/-- C1 counterexample: for Scenario A the inferred PlainText profile does
not have "numeric evidence and no text evidence" — the `"abc"` value
contributes text evidence even though its field is declared numeric,
because the record-value scan of `getFieldCategories` never consults
`is_num`. -/
theorem c1_counterexample :
    ¬ ((getFieldCategories scenarioAFields scenarioARecords).text.hasNumeric = true
       ∧ (getFieldCategories scenarioAFields scenarioARecords).text.hasText = false) := by
  decide

/-- C1 amended: for Scenario A the inferred PlainText profile has both
numeric evidence (from `is_num` and `"10"`, `"20"`) and text evidence
(from `"abc"`, which fails numeric parse and is a non-empty string). -/
theorem c1_amended :
    (getFieldCategories scenarioAFields scenarioARecords).text.hasNumeric = true
    ∧ (getFieldCategories scenarioAFields scenarioARecords).text.hasText = true := by
  decide

/-- C4 counterexample: the no-evidence profile (the initial `text`
profile with an empty field and record list) yields the operator list
`[Equals, Contains, Starts With]`, which contains a text operator even
though the profile has no text evidence — refuting both the "text
operators iff text evidence" direction and the spec's "empty operator
set" invariant. -/
theorem c4_counterexample :
    initCategories.get? "text" = some ⟨"Text Fields", false, false⟩
    ∧ (⟨"ilike", "Contains"⟩ : OpEntry) ∈ getOperatorsForFieldType initCategories "text"
    ∧ ¬ ((⟨"Text Fields", false, false⟩ : CatProfile).hasText = true) := by
  refine ⟨by decide, by decide, by decide⟩

/-- C4 amended: `getOperatorsForFieldType` always includes `Equals`,
includes each numeric operator iff the profile has numeric evidence, and
includes each text operator iff the profile has text evidence or no
numeric evidence (the text-biased default branch). -/
theorem c4_amended (c : Categories) (ft : String) (p : CatProfile)
    (hp : c.get? ft = some p) :
    equalsOperator ∈ getOperatorsForFieldType c ft
    ∧ ((⟨"gt", "Greater Than"⟩ : OpEntry) ∈ getOperatorsForFieldType c ft ↔ p.hasNumeric = true)
    ∧ ((⟨"lt", "Less Than"⟩ : OpEntry) ∈ getOperatorsForFieldType c ft ↔ p.hasNumeric = true)
    ∧ ((⟨"gte", "Greater or Equal"⟩ : OpEntry) ∈ getOperatorsForFieldType c ft ↔ p.hasNumeric = true)
    ∧ ((⟨"lte", "Less or Equal"⟩ : OpEntry) ∈ getOperatorsForFieldType c ft ↔ p.hasNumeric = true)
    ∧ ((⟨"ilike", "Contains"⟩ : OpEntry) ∈ getOperatorsForFieldType c ft
        ↔ (p.hasText = true ∨ p.hasNumeric = false))
    ∧ ((⟨"like", "Starts With"⟩ : OpEntry) ∈ getOperatorsForFieldType c ft
        ↔ (p.hasText = true ∨ p.hasNumeric = false)) := by
  obtain ⟨lab, hT, hN⟩ := p
  cases hT <;> cases hN <;>
    simp [getOperatorsForFieldType, hp, equalsOperator, numericOperators, stringOperators]

theorem c4_amended_witness :
    ((⟨⟨"Text Fields", false, true⟩, ⟨"Multiline Fields", false, false⟩,
        ⟨"Dropdown Fields", false, false⟩⟩ : Categories).get? "text"
      = some ⟨"Text Fields", false, true⟩)
    ∧ (equalsOperator ∈ getOperatorsForFieldType
        ⟨⟨"Text Fields", false, true⟩, ⟨"Multiline Fields", false, false⟩,
          ⟨"Dropdown Fields", false, false⟩⟩ "text"
       ∧ ((⟨"gt", "Greater Than"⟩ : OpEntry) ∈ getOperatorsForFieldType
            ⟨⟨"Text Fields", false, true⟩, ⟨"Multiline Fields", false, false⟩,
              ⟨"Dropdown Fields", false, false⟩⟩ "text"
          ↔ (⟨"Text Fields", false, true⟩ : CatProfile).hasNumeric = true)
       ∧ ((⟨"lt", "Less Than"⟩ : OpEntry) ∈ getOperatorsForFieldType
            ⟨⟨"Text Fields", false, true⟩, ⟨"Multiline Fields", false, false⟩,
              ⟨"Dropdown Fields", false, false⟩⟩ "text"
          ↔ (⟨"Text Fields", false, true⟩ : CatProfile).hasNumeric = true)
       ∧ ((⟨"gte", "Greater or Equal"⟩ : OpEntry) ∈ getOperatorsForFieldType
            ⟨⟨"Text Fields", false, true⟩, ⟨"Multiline Fields", false, false⟩,
              ⟨"Dropdown Fields", false, false⟩⟩ "text"
          ↔ (⟨"Text Fields", false, true⟩ : CatProfile).hasNumeric = true)
       ∧ ((⟨"lte", "Less or Equal"⟩ : OpEntry) ∈ getOperatorsForFieldType
            ⟨⟨"Text Fields", false, true⟩, ⟨"Multiline Fields", false, false⟩,
              ⟨"Dropdown Fields", false, false⟩⟩ "text"
          ↔ (⟨"Text Fields", false, true⟩ : CatProfile).hasNumeric = true)
       ∧ ((⟨"ilike", "Contains"⟩ : OpEntry) ∈ getOperatorsForFieldType
            ⟨⟨"Text Fields", false, true⟩, ⟨"Multiline Fields", false, false⟩,
              ⟨"Dropdown Fields", false, false⟩⟩ "text"
          ↔ ((⟨"Text Fields", false, true⟩ : CatProfile).hasText = true
             ∨ (⟨"Text Fields", false, true⟩ : CatProfile).hasNumeric = false))
       ∧ ((⟨"like", "Starts With"⟩ : OpEntry) ∈ getOperatorsForFieldType
            ⟨⟨"Text Fields", false, true⟩, ⟨"Multiline Fields", false, false⟩,
              ⟨"Dropdown Fields", false, false⟩⟩ "text"
          ↔ ((⟨"Text Fields", false, true⟩ : CatProfile).hasText = true
             ∨ (⟨"Text Fields", false, true⟩ : CatProfile).hasNumeric = false))) :=
  ⟨by decide,
   c4_amended ⟨⟨"Text Fields", false, true⟩, ⟨"Multiline Fields", false, false⟩,
     ⟨"Dropdown Fields", false, false⟩⟩ "text" ⟨"Text Fields", false, true⟩ (by decide)⟩

theorem eqb_nan_right (a : JSNum) : a.eqb .nan = false := by cases a <;> rfl

theorem ltb_nan_right (a : JSNum) : a.ltb .nan = false := by cases a <;> rfl

theorem leb_nan_right (a : JSNum) : a.leb .nan = false := by cases a <;> rfl

theorem gtb_nan_right (a : JSNum) : a.gtb .nan = false := by cases a <;> rfl

theorem geb_nan_right (a : JSNum) : a.geb .nan = false := by cases a <;> rfl

/-- C5 counterexample: with the clause value `"15abc"` — which fails the
stored-value parse rule (`parseFloat` succeeds but the whole string is
not finite) — the numeric `gt` comparison still succeeds, because the
evaluator parses the clause value with bare `parseFloat`: the record
holding `"20"` is returned. -/
theorem c5_counterexample :
    numericCompare "gt" (.fin 20 0) (parseFloat "15abc") = some true
    ∧ (parseFloat "15abc").isNaN = false
    ∧ (strToNumber "15abc").isFin = false
    ∧ evaluate [⟨1, [("Age", .str "20")]⟩] [⟨"Age", "text", true⟩]
        [⟨"text", "gt", "15abc", "and", 0⟩] = [⟨1, [("Age", .str "20")]⟩] := by
  refine ⟨by decide, by decide, by decide, by decide⟩

/-- C5 amended: the evaluator parses a clause's comparison value with
bare `parseFloat` (no whole-string finiteness check, unlike stored
values); a numeric comparison can succeed only when that `parseFloat`
does not yield NaN. -/
theorem c5_amended (op : String) (stored : JSNum) (fv : String)
    (h : numericCompare op stored (parseFloat fv) = some true) :
    (parseFloat fv).isNaN = false := by
  cases hn : parseFloat fv with
  | nan =>
    rw [hn] at h
    unfold numericCompare at h
    split at h <;>
      simp_all [eqb_nan_right, ltb_nan_right, leb_nan_right, gtb_nan_right, geb_nan_right]
  | inf => rfl
  | ninf => rfl
  | fin n d => rfl

theorem c5_amended_witness :
    numericCompare "gt" (.fin 20 0) (parseFloat "15") = some true
    ∧ (parseFloat "15").isNaN = false :=
  ⟨by decide, c5_amended "gt" (.fin 20 0) "15" (by decide)⟩

/-- C3 counterexample: with field `A` (`text`, declared numeric) and
records `{A:"hello"}`, `{A:"5"}`, the clause `Contains "5"` keeps only
the `"5"` record on the first evaluation (mixed profile: numeric branch
falls through to the text branch), but a second evaluation derives its
profiles from the filtered collection, which has no text evidence, so
the `"5"` record is dropped: `evaluate ∘ evaluate ≠ evaluate`. -/
theorem c3_counterexample :
    evaluate (evaluate [⟨1, [("A", .str "hello")]⟩, ⟨2, [("A", .str "5")]⟩]
        [⟨"A", "text", true⟩] [⟨"text", "ilike", "5", "and", 0⟩])
      [⟨"A", "text", true⟩] [⟨"text", "ilike", "5", "and", 0⟩]
    ≠ evaluate [⟨1, [("A", .str "hello")]⟩, ⟨2, [("A", .str "5")]⟩]
        [⟨"A", "text", true⟩] [⟨"text", "ilike", "5", "and", 0⟩] := by
  decide

/-- C3 amended: filtering is idempotent when the category profiles are
computed once (from the original collection) and reused, i.e.
`applyFilters` with a fixed profile dictionary is a stable subset
operation. -/
theorem c3_amended (records : List Record) (fields : List Field)
    (cats : Categories) (filters : List EvalFilter) :
    applyFilters (applyFilters records fields cats filters) fields cats filters
      = applyFilters records fields cats filters := by
  unfold applyFilters
  by_cases hF : filters.length = 0
  · simp [hF]
  · simp [hF, List.filter_filter]

/-- C7: the empty FilterSet is the identity on both paths — the
evaluator returns the record collection unchanged and the encoder
produces the unfiltered base query `/record?form_id=eq.<formId>`. -/
theorem c7_empty_identity (records : List Record) (fields : List Field) (formId : Nat) :
    evaluate records fields [] = records
    ∧ filterQuery formId [] = "/record?form_id=eq." ++ toString formId := by
  constructor
  · simp [evaluate, applyFilters]
  · simp [filterQuery, baseQuery]

theorem clauseParam_alwaysText (f : EncFilter) (h : f.isNumeric = false) :
    clauseParam f = clauseParamAlwaysText f := by
  simp [clauseParam, clauseParamAlwaysText, h]

theorem buildQuery_alwaysText_eq :
    ∀ (filters : List EncFilter) (i : Nat) (q : String),
      (∀ c ∈ filters, c.isNumeric = false) →
      buildQuery filters i q = buildQueryAlwaysText filters i q := by
  intro filters
  induction filters with
  | nil => intro i q h; rfl
  | cons f rest ih =>
    intro i q h
    unfold buildQuery buildQueryAlwaysText
    rw [clauseParam_alwaysText f (h f (List.mem_cons_self f rest))]
    exact ih (i + 1) _ (fun c hc => h c (List.mem_cons_of_mem f hc))

/-- C2 counterexample: the encoder's JSON-path operator does depend on
the clause's `isNumeric` marking — a clause marked numeric is encoded
with `-` (the numeric-extraction form of the source's comment) instead of
the text-extraction form `-%3E`, so the two encodings differ. -/
theorem c2_counterexample :
    filterQuery 5 [⟨"Age", "eq", "10", true, "and"⟩]
      = "/record?form_id=eq.5values-%22Age%22=eq.10"
    ∧ filterQuery 5 [⟨"Age", "eq", "10", false, "and"⟩]
      = "/record?form_id=eq.5values-%3E%22Age%22=eq.10"
    ∧ filterQuery 5 [⟨"Age", "eq", "10", true, "and"⟩]
      ≠ filterQuery 5 [⟨"Age", "eq", "10", false, "and"⟩] := by
  refine ⟨by decide, by decide, by decide⟩

/-- C2 amended: for clauses not marked `isNumeric` the encoder uses the
text-extraction JSON-path operator throughout — on such filter sets it
coincides with the spec's always-text encoder; clauses marked `isNumeric`
are instead encoded with the numeric-extraction form. -/
theorem c2_amended (formId : Nat) (filters : List EncFilter)
    (h : ∀ c ∈ filters, c.isNumeric = false) :
    filterQuery formId filters = filterQueryAlwaysText formId filters := by
  unfold filterQuery filterQueryAlwaysText
  by_cases hl : filters.length = 0
  · simp [hl]
  · rw [if_neg hl, if_neg hl]
    exact buildQuery_alwaysText_eq filters 0 (baseQuery formId) h

theorem c2_amended_witness :
    ((⟨"Age", "eq", "10", false, "and"⟩ : EncFilter).isNumeric = false)
    ∧ filterQuery 5 [⟨"Age", "eq", "10", false, "and"⟩]
        = filterQueryAlwaysText 5 [⟨"Age", "eq", "10", false, "and"⟩] :=
  ⟨by decide,
   c2_amended 5 [⟨"Age", "eq", "10", false, "and"⟩] (by
     intro c hc
     simp only [List.mem_singleton] at hc
     subst hc
     rfl)⟩


theorem buildQuery_tail :
    ∀ (cs : List EncFilter) (i : Nat) (q : String),
      (∀ f ∈ cs, (clauseParam f).isSome = true) →
      buildQuery cs (i + 1) q = q ++ joinAmp cs := by
  intro cs
  induction cs with
  | nil =>
    intro i q h
    simp [buildQuery, joinAmp]
  | cons f rest ih =>
    intro i q h
    obtain ⟨p, hp⟩ := Option.isSome_iff_exists.mp (h f (List.mem_cons_self f rest))
    unfold buildQuery joinAmp
    rw [hp]
    simp only [Option.getD_some, gt_iff_lt, Nat.succ_pos, if_pos]
    rw [ih (i + 1) _ (fun g hg => h g (List.mem_cons_of_mem f hg))]
    simp [String.append_assoc]

theorem buildQuery_head (c : EncFilter) (cs : List EncFilter) (q p : String)
    (hp : clauseParam c = some p)
    (hrest : ∀ f ∈ cs, (clauseParam f).isSome = true) :
    buildQuery (c :: cs) 0 q = q ++ (p ++ joinAmp cs) := by
  unfold buildQuery
  rw [hp]
  simp only [gt_iff_lt, Nat.lt_irrefl, if_false]
  rw [buildQuery_tail cs 0 _ hrest]
  simp [String.append_assoc]

theorem amp_split (x : String) :
    ("&values-%3E" : String) ++ x = "&" ++ ("values-%3E" ++ x) := by
  rw [show ("&values-%3E" : String) = "&" ++ "values-%3E" from rfl, String.append_assoc]

/-- C9: the multi-clause encoder inserts the `&` separator only before
clauses at index 1 and later — the first clause's comparison is
concatenated directly after the base path `/record?form_id=eq.<formId>`
with no separator — whereas the single-clause encoder
`filterRecordsSimple` prefixes its clause with `&`. -/
theorem c9_separator (formId : Nat) (c : EncFilter) (cs : List EncFilter)
    (fld op v : String)
    (h : ∀ f ∈ c :: cs, (clauseParam f).isSome = true)
    (hs : (clauseParam ⟨fld, op, v, false, "and"⟩).isSome = true) :
    filterQuery formId (c :: cs) = baseQuery formId ++ (clauseParam c).getD "" ++ joinAmp cs
    ∧ filterRecordsSimple formId fld op v
        = baseQuery formId ++ "&" ++ (clauseParam ⟨fld, op, v, false, "and"⟩).getD "" := by
  constructor
  · obtain ⟨p, hp⟩ := Option.isSome_iff_exists.mp (h c (List.mem_cons_self c cs))
    unfold filterQuery
    rw [if_neg (by simp)]
    rw [buildQuery_head c cs _ p hp (fun g hg => h g (List.mem_cons_of_mem c hg))]
    rw [hp]
    simp [String.append_assoc]
  · unfold filterRecordsSimple
    split
    · simp [clauseParam, String.append_assoc, amp_split]
    · simp [clauseParam, String.append_assoc, amp_split]
    · simp [clauseParam, String.append_assoc, amp_split]
    · simp [clauseParam, String.append_assoc, amp_split]
    · simp [clauseParam, String.append_assoc, amp_split]
    · simp [clauseParam, String.append_assoc, amp_split]
    · simp [clauseParam, String.append_assoc, amp_split]
    · unfold clauseParam at hs
      simp only at hs
      simp at hs

theorem c9_separator_witness :
    ((clauseParam ⟨"Age", "eq", "10", false, "and"⟩).isSome = true)
    ∧ ((clauseParam ⟨"X", "gt", "3", false, "and"⟩).isSome = true)
    ∧ (filterQuery 5 [⟨"Age", "eq", "10", false, "and"⟩, ⟨"Name", "ilike", "Jo", false, "and"⟩]
        = baseQuery 5 ++ (clauseParam ⟨"Age", "eq", "10", false, "and"⟩).getD ""
            ++ joinAmp [⟨"Name", "ilike", "Jo", false, "and"⟩]
       ∧ filterRecordsSimple 5 "X" "gt" "3"
          = baseQuery 5 ++ "&" ++ (clauseParam ⟨"X", "gt", "3", false, "and"⟩).getD "") :=
  ⟨by decide, by decide,
   c9_separator 5 ⟨"Age", "eq", "10", false, "and"⟩ [⟨"Name", "ilike", "Jo", false, "and"⟩]
     "X" "gt" "3" (by decide) (by decide)⟩

theorem clauseHolds_key_congr (cats : Categories) (fields : List Field) (r : Record)
    (f f2 : EvalFilter) (h : evalFilterKey f = evalFilterKey f2) :
    clauseHolds cats fields r f = clauseHolds cats fields r f2 := by
  cases f
  cases f2
  simp only [evalFilterKey, Prod.mk.injEq] at h
  obtain ⟨h1, h2, h3, h4⟩ := h
  subst h1
  subst h2
  subst h3
  subst h4
  rfl

theorem all_clauseHolds_congr (cats : Categories) (fields : List Field) (r : Record) :
    ∀ (F F2 : List EvalFilter), F.map evalFilterKey = F2.map evalFilterKey →
      F.all (clauseHolds cats fields r) = F2.all (clauseHolds cats fields r) := by
  intro F
  induction F with
  | nil =>
    intro F2 h
    cases F2 with
    | nil => rfl
    | cons g t => simp at h
  | cons f t ih =>
    intro F2 h
    cases F2 with
    | nil => simp at h
    | cons g t2 =>
      simp only [List.map_cons, List.cons.injEq] at h
      obtain ⟨h1, h2⟩ := h
      simp [List.all_cons, clauseHolds_key_congr cats fields r f g h1, ih t2 h2]

theorem clauseParam_key_congr (f f2 : EncFilter) (h : encFilterKey f = encFilterKey f2) :
    clauseParam f = clauseParam f2 := by
  cases f
  cases f2
  simp only [encFilterKey, Prod.mk.injEq] at h
  obtain ⟨h1, h2, h3, h4⟩ := h
  subst h1
  subst h2
  subst h3
  subst h4
  rfl

theorem buildQuery_key_congr :
    ∀ (G G2 : List EncFilter) (i : Nat) (q : String),
      G.map encFilterKey = G2.map encFilterKey →
      buildQuery G i q = buildQuery G2 i q := by
  intro G
  induction G with
  | nil =>
    intro G2 i q h
    cases G2 with
    | nil => rfl
    | cons g t => simp at h
  | cons f t ih =>
    intro G2 i q h
    cases G2 with
    | nil => simp at h
    | cons g t2 =>
      simp only [List.map_cons, List.cons.injEq] at h
      obtain ⟨h1, h2⟩ := h
      unfold buildQuery
      rw [clauseParam_key_congr f g h1]
      exact ih t2 (i + 1) _ h2

/-- C6: both paths apply AND-only semantics: the evaluator returns
exactly the records for which every clause holds, and replacing any
clause combinators (AND/OR) in either the evaluator's or the encoder's
filter set — keeping everything else equal — changes neither output. -/
theorem c6_and_only (records : List Record) (fields : List Field)
    (F F2 : List EvalFilter) (G G2 : List EncFilter) (formId : Nat) (r : Record)
    (hF : F.map evalFilterKey = F2.map evalFilterKey)
    (hG : G.map encFilterKey = G2.map encFilterKey) :
    evaluate records fields F = evaluate records fields F2
    ∧ filterQuery formId G = filterQuery formId G2
    ∧ (r ∈ evaluate records fields F ↔
        r ∈ records
        ∧ F.all (clauseHolds (getFieldCategories fields records) fields r) = true) := by
  have hlenF : F.length = F2.length := by
    have := congrArg List.length hF
    simpa using this
  have hlenG : G.length = G2.length := by
    have := congrArg List.length hG
    simpa using this
  refine ⟨?_, ?_, ?_⟩
  · unfold evaluate applyFilters
    by_cases hl : F.length = 0
    · rw [if_pos hl, if_pos (hlenF ▸ hl)]
    · rw [if_neg hl, if_neg (hlenF ▸ hl)]
      have hfun : (fun record => F.all fun filter =>
          clauseHolds (getFieldCategories fields records) fields record filter)
          = (fun record => F2.all fun filter =>
          clauseHolds (getFieldCategories fields records) fields record filter) :=
        funext (fun rec => all_clauseHolds_congr _ fields rec F F2 hF)
      rw [hfun]
  · unfold filterQuery
    by_cases hl : G.length = 0
    · rw [if_pos hl, if_pos (hlenG ▸ hl)]
    · rw [if_neg hl, if_neg (hlenG ▸ hl)]
      exact buildQuery_key_congr G G2 0 (baseQuery formId) hG
  · unfold evaluate applyFilters
    by_cases hl : F.length = 0
    · have : F = [] := List.length_eq_zero.mp hl
      subst this
      simp
    · rw [if_neg hl]
      simp [List.mem_filter]


theorem c6_and_only_witness :
    ([(⟨"text", "ilike", "a", "and", 1⟩ : EvalFilter), ⟨"text", "ilike", "b", "and", 2⟩].map evalFilterKey
      = [(⟨"text", "ilike", "a", "and", 1⟩ : EvalFilter), ⟨"text", "ilike", "b", "or", 2⟩].map evalFilterKey)
    ∧ ([(⟨"A", "ilike", "a", false, "and"⟩ : EncFilter), ⟨"A", "ilike", "b", false, "and"⟩].map encFilterKey
      = [(⟨"A", "ilike", "a", false, "and"⟩ : EncFilter), ⟨"A", "ilike", "b", false, "or"⟩].map encFilterKey)
    ∧ (evaluate [⟨1, [("A", .str "ab")]⟩] [⟨"A", "text", false⟩]
          [⟨"text", "ilike", "a", "and", 1⟩, ⟨"text", "ilike", "b", "and", 2⟩]
        = evaluate [⟨1, [("A", .str "ab")]⟩] [⟨"A", "text", false⟩]
          [⟨"text", "ilike", "a", "and", 1⟩, ⟨"text", "ilike", "b", "or", 2⟩]
       ∧ filterQuery 5 [⟨"A", "ilike", "a", false, "and"⟩, ⟨"A", "ilike", "b", false, "and"⟩]
          = filterQuery 5 [⟨"A", "ilike", "a", false, "and"⟩, ⟨"A", "ilike", "b", false, "or"⟩]
       ∧ ((⟨1, [("A", .str "ab")]⟩ : Record) ∈ evaluate [⟨1, [("A", .str "ab")]⟩] [⟨"A", "text", false⟩]
            [⟨"text", "ilike", "a", "and", 1⟩, ⟨"text", "ilike", "b", "and", 2⟩]
          ↔ (⟨1, [("A", .str "ab")]⟩ : Record) ∈ [(⟨1, [("A", .str "ab")]⟩ : Record)]
            ∧ [(⟨"text", "ilike", "a", "and", 1⟩ : EvalFilter), ⟨"text", "ilike", "b", "and", 2⟩].all
                (clauseHolds (getFieldCategories [⟨"A", "text", false⟩] [⟨1, [("A", .str "ab")]⟩])
                  [⟨"A", "text", false⟩] ⟨1, [("A", .str "ab")]⟩) = true)) :=
  ⟨by decide, by decide,
   c6_and_only [⟨1, [("A", .str "ab")]⟩] [⟨"A", "text", false⟩]
     [⟨"text", "ilike", "a", "and", 1⟩, ⟨"text", "ilike", "b", "and", 2⟩]
     [⟨"text", "ilike", "a", "and", 1⟩, ⟨"text", "ilike", "b", "or", 2⟩]
     [⟨"A", "ilike", "a", false, "and"⟩, ⟨"A", "ilike", "b", false, "and"⟩]
     [⟨"A", "ilike", "a", false, "and"⟩, ⟨"A", "ilike", "b", false, "or"⟩]
     5 ⟨1, [("A", .str "ab")]⟩ (by decide) (by decide)⟩

end LO
